import Mathlib

/-!
Verification of the Hours-of-Service (HOS) compliance engine of the
spotter-job-application-backend repository.

The Python source is shallowly embedded:
* timestamps are rationals (seconds), calendar dates are integers (day index);
* Django `Decimal`/`float` hour quantities are rationals;
* nullable columns are `Option`;
* a computation that would raise a Python `TypeError` (e.g. `None - datetime`)
  is `Option`-valued and returns `none` there;
* the rendered text of f-string violation notes is elided: a note is kept as
  its violation kind together with the interpolated numeric value.

Sources embedded: `eld_logs/models.py` (ELDLog, DutyStatusEntry, HOSViolation),
`eld_logs/services.py` (HOSRulesEngine, ELDLogService), `eld_logs/views.py`
(change_duty_status, ELDLogViewSet.certify) and
`accounts/models.py` (User.get_current_hos_hours, get_available_driving_hours).
-/

namespace Spotter

/-- Duty status choices of `DutyStatusEntry.STATUS_CHOICES`. -/
inductive DutyStatus
  | OFF_DUTY
  | SLEEPER_BERTH
  | DRIVING
  | ON_DUTY_NOT_DRIVING
deriving DecidableEq, Repr

/-- Violation kinds of `HOSViolation.VIOLATION_TYPE_CHOICES`. -/
inductive ViolationType
  | DRIVING_LIMIT
  | DUTY_LIMIT
  | CYCLE_LIMIT
  | BREAK_REQUIRED
  | REST_REQUIRED
deriving DecidableEq, Repr

/-- Severities of `HOSViolation.SEVERITY_CHOICES`. -/
inductive Severity
  | LOW
  | MEDIUM
  | HIGH
  | CRITICAL
deriving DecidableEq, Repr

/-- Company operation schedule choices (`accounts/models.py`,
`Company.OPERATION_SCHEDULE_CHOICES`): 60h/7-day or 70h/8-day. -/
inductive OperationSchedule
  | SEVEN_DAY
  | EIGHT_DAY
deriving DecidableEq, Repr

/-- `eld_logs/models.py`, `DutyStatusEntry`: one duty-status segment.
`start_time`/`end_time` are timestamps in seconds; `end_time = none` is the
NULL end time of a still-active segment. Location, remarks, odometer and
audit columns are not needed by any claim and are elided. -/
structure DutyStatusEntry where
  start_time : ℚ
  end_time : Option ℚ
  status : DutyStatus
deriving DecidableEq, Repr

/-- A violation note, as appended by `ELDLog.check_violations`.  The code
builds an f-string such as
`f"Driving time exceeded: {self.driving_hours} hours (limit: 11)"`;
the embedding keeps the kind and the interpolated hour value. -/
structure ViolationNote where
  kind : ViolationType
  value : ℚ
deriving DecidableEq, Repr

/-- `eld_logs/models.py`, `ELDLog`: the daily log.  The duty entries of the
log (a separate table related by `eld_log`) are carried inline in `entries`.
`violation_notes` is the list of notes joined by `"; "` in the code. -/
structure ELDLog where
  log_date : ℤ
  off_duty_hours : ℚ
  sleeper_berth_hours : ℚ
  driving_hours : ℚ
  on_duty_not_driving_hours : ℚ
  cycle_hours_used : ℚ
  cycle_hours_available : ℚ
  has_violations : Bool
  violation_notes : List ViolationNote
  is_certified : Bool
  certified_at : Option ℚ
  signature : String
  entries : List DutyStatusEntry
deriving DecidableEq, Repr

/-- `eld_logs/models.py`, `HOSViolation`: a persisted standalone violation
record (only the fields the claims mention). -/
structure HOSViolationRec where
  violation_type : ViolationType
  severity : Severity
  is_resolved : Bool
deriving DecidableEq, Repr

/-- A fresh `ELDLog` as produced by `get_or_create` defaults: every hour
total at its column default `0`, `cycle_hours_available` at its default `70`,
not certified, no entries. -/
def emptyLog (d : ℤ) : ELDLog :=
  { log_date := d
    off_duty_hours := 0
    sleeper_berth_hours := 0
    driving_hours := 0
    on_duty_not_driving_hours := 0
    cycle_hours_used := 0
    cycle_hours_available := 70
    has_violations := false
    violation_notes := []
    is_certified := false
    certified_at := none
    signature := ""
    entries := [] }

/-- `DutyStatusEntry.duration_hours`: `(end_time - start_time).total_seconds() / 3600`.
When `end_time` is NULL the Python subtraction `None - datetime` raises
`TypeError`; the embedding returns `none` there. -/
def duration_hours (e : DutyStatusEntry) : Option ℚ :=
  e.end_time.map (fun t => (t - e.start_time) / 3600)

/-- `ELDLog.total_duty_hours`: driving plus on-duty-not-driving. -/
def total_duty_hours (log : ELDLog) : ℚ :=
  log.driving_hours + log.on_duty_not_driving_hours

/-- The list of violation notes assembled by `ELDLog.check_violations`:
one note per breached threshold, appended in the order
driving (`> 11`), duty (`> 14`), cycle (`> 70`). -/
def violation_notes_list (driving duty cycle_used : ℚ) : List ViolationNote :=
  (if driving > 11 then [⟨ViolationType.DRIVING_LIMIT, driving⟩] else [])
    ++ (if duty > 14 then [⟨ViolationType.DUTY_LIMIT, duty⟩] else [])
    ++ (if cycle_used > 70 then [⟨ViolationType.CYCLE_LIMIT, cycle_used⟩] else [])

/-- `ELDLog.check_violations`: recompute the violation notes from the stored
totals, set `has_violations` iff some note was produced and overwrite
`violation_notes` with the fresh list.  No `HOSViolation` row is touched. -/
def check_violations (log : ELDLog) : ELDLog :=
  let violations := violation_notes_list log.driving_hours (total_duty_hours log)
      log.cycle_hours_used
  { log with
      has_violations := violations.length > 0
      violation_notes := violations }

/-- The four per-status accumulators of `ELDLog.calculate_daily_totals`. -/
structure DailyTotalsAcc where
  off_duty : ℚ
  sleeper : ℚ
  driving : ℚ
  on_duty : ℚ
deriving DecidableEq, Repr

/-- `totals[entry.status] += duration_hours` for one entry. -/
def bumpTotals (t : DailyTotalsAcc) (st : DutyStatus) (d : ℚ) : DailyTotalsAcc :=
  match st with
  | DutyStatus.OFF_DUTY => { t with off_duty := t.off_duty + d }
  | DutyStatus.SLEEPER_BERTH => { t with sleeper := t.sleeper + d }
  | DutyStatus.DRIVING => { t with driving := t.driving + d }
  | DutyStatus.ON_DUTY_NOT_DRIVING => { t with on_duty := t.on_duty + d }

/-- The loop of `ELDLog.calculate_daily_totals` over the day's entries.
`entry.duration_hours` raises on an entry whose `end_time` is NULL, so the
whole fold is `none` as soon as one open entry is encountered. -/
def dailyTotalsFromEntries (es : List DutyStatusEntry) : Option DailyTotalsAcc :=
  es.foldl
    (fun acc e => do
      let t ← acc
      let d ← duration_hours e
      pure (bumpTotals t e.status d))
    (some ⟨0, 0, 0, 0⟩)

/-- `ELDLog.calculate_daily_totals`: recompute the four category totals from
the entries, then `check_violations`, then save.  `none` models the
`TypeError` raised on a still-open entry (NULL `end_time`). -/
def calculate_daily_totals (log : ELDLog) : Option ELDLog :=
  (dailyTotalsFromEntries log.entries).map (fun t =>
    check_violations
      { log with
          off_duty_hours := t.off_duty
          sleeper_berth_hours := t.sleeper
          driving_hours := t.driving
          on_duty_not_driving_hours := t.on_duty })

/-- `eld_logs/serializers.py`, `DutyStatusEntrySerializer.get_duration_hours`:
unlike the model property, the serializer computes an active segment
against now (comment in source: segment actif, calculer depuis maintenant).
The 2-decimal rounding applied by `round(..., 2)` is elided. -/
def serializer_duration_hours (e : DutyStatusEntry) (now : ℚ) : ℚ :=
  match e.end_time with
  | some t => (t - e.start_time) / 3600
  | none => (now - e.start_time) / 3600

/-- Result of `HOSRulesEngine._calculate_cycle_times`. -/
structure CycleTimes where
  hours_used : ℚ
  hours_available : ℚ
  days_count : ℕ
deriving DecidableEq, Repr

/-- `HOSRulesEngine._calculate_cycle_times`: sums driving + on-duty-not-driving
over the logs dated in `[today - (CYCLE_70_DAYS - 1), today]` with
`CYCLE_70_DAYS = 8` and ceiling `CYCLE_70_HOURS = 70`, both hardcoded —
the driver's company schedule is never consulted. -/
def calculate_cycle_times (logs : List ELDLog) (today : ℤ) : CycleTimes :=
  let cycle_start := today - (8 - 1)
  let sel := logs.filter (fun l =>
    decide (cycle_start ≤ l.log_date) && decide (l.log_date ≤ today))
  let total_duty_hours :=
    (sel.map (fun l => l.driving_hours + l.on_duty_not_driving_hours)).sum
  { hours_used := total_duty_hours
    hours_available := max 0 (70 - total_duty_hours)
    days_count := sel.length }

/-- Modelled from the spec words of `cycleTotals(driver, asOfDate)` (§4.2),
for comparison with `calculate_cycle_times`: sums (driving + on-duty-not-driving)
hours over the trailing window of N calendar days ending at `asOfDate`
inclusive, N = 8 and ceiling 70 for an 8-day schedule, N = 7 and ceiling 60
otherwise; hours-available = max(0, ceiling - used). -/
def cycleTotals_spec (sched : OperationSchedule) (logs : List ELDLog) (asOf : ℤ) :
    ℚ × ℚ :=
  let N : ℤ := match sched with
    | OperationSchedule.EIGHT_DAY => 8
    | OperationSchedule.SEVEN_DAY => 7
  let ceiling : ℚ := match sched with
    | OperationSchedule.EIGHT_DAY => 70
    | OperationSchedule.SEVEN_DAY => 60
  let sel := logs.filter (fun l =>
    decide (asOf - (N - 1) ≤ l.log_date) && decide (l.log_date ≤ asOf))
  let used := (sel.map (fun l => l.driving_hours + l.on_duty_not_driving_hours)).sum
  (used, max 0 (ceiling - used))

/-- The `daily_times` dict of `HOSRulesEngine._calculate_daily_times`:
read from the stored `ELDLog` columns (no recompute from entries). -/
structure DailyTimes where
  driving : ℚ
  on_duty : ℚ
  duty : ℚ
  off_duty : ℚ
  sleeper : ℚ
deriving DecidableEq, Repr

/-- `HOSRulesEngine._calculate_daily_times`. -/
def calculate_daily_times (log : ELDLog) : DailyTimes :=
  { driving := log.driving_hours
    on_duty := log.on_duty_not_driving_hours
    duty := log.driving_hours + log.on_duty_not_driving_hours
    off_duty := log.off_duty_hours
    sleeper := log.sleeper_berth_hours }

/-- The `break` status dict of `HOSRulesEngine._check_break_requirement`
(only the fields `can_start_driving` reads). -/
structure BreakStatus where
  required : Bool
  completed : Bool
deriving DecidableEq, Repr

/-- The `rest` status dict of `HOSRulesEngine._calculate_rest_status`. -/
structure RestStatus where
  hours_since_last_rest : ℚ
  needs_rest : Bool
  in_rest_period : Bool
deriving DecidableEq, Repr

/-- The `available` dict of `HOSRulesEngine._calculate_available_times`. -/
structure AvailableTimes where
  driving : ℚ
  duty : ℚ
  cycle : ℚ
deriving DecidableEq, Repr

/-- `HOSRulesEngine._calculate_available_times`: daily driving and duty
remainders clamped at 0, cycle taken from the cycle times; both daily
remainders are zeroed when rest is needed and the driver is not resting. -/
def calculate_available_times (daily : DailyTimes) (cyc : CycleTimes)
    (rest : RestStatus) : AvailableTimes :=
  let driving_available := max 0 (11 - daily.driving)
  let duty_available := max 0 (14 - daily.duty)
  let cycle_available := cyc.hours_available
  if rest.needs_rest && !rest.in_rest_period then
    { driving := 0, duty := 0, cycle := cycle_available }
  else
    { driving := driving_available, duty := duty_available, cycle := cycle_available }

/-- Reason string returned when the daily driving limit blocks driving. -/
def drivingLimitReason : String := "Limite de conduite quotidienne atteinte (11 heures)"

/-- Reason string returned when the daily duty window blocks driving. -/
def dutyLimitReason : String := "Limite de service quotidienne atteinte (14 heures)"

/-- Reason string returned when the cycle ceiling blocks driving. -/
def cycleLimitReason : String := "Limite de cycle atteinte (70 heures sur 8 jours)"

/-- Reason string returned when the 30-minute break is due. -/
def breakRequiredReason : String := "Pause de 30 minutes obligatoire après 8 heures de conduite"

/-- Reason string returned when the 10-hour rest is due. -/
def restRequiredReason : String := "Repos de 10 heures obligatoire"

/-- Reason string returned when driving is permitted. -/
def driveGrantedReason : String := "Autorisation de conduire accordée"

/-- `HOSRulesEngine.can_start_driving`: ordered short-circuit over the
computed status.  The source checks, in this order: daily driving available,
daily duty available, cycle available, pending break, pending rest. -/
def can_start_driving (avail : AvailableTimes) (brk : BreakStatus)
    (rest : RestStatus) : Bool × String :=
  if avail.driving ≤ 0 then (false, drivingLimitReason)
  else if avail.duty ≤ 0 then (false, dutyLimitReason)
  else if avail.cycle ≤ 0 then (false, cycleLimitReason)
  else if brk.required && !brk.completed then (false, breakRequiredReason)
  else if rest.needs_rest then (false, restRequiredReason)
  else (true, driveGrantedReason)

/-- Modelled from the spec words of `canStartDriving(driver)` (§4.3), for
comparison with `can_start_driving`: evaluates, in order,
cycle-hours-available > 0, daily driving-available > 0, daily
duty-available > 0, break satisfied, rest satisfied, and returns the first
failing reason. -/
def canStartDriving_spec (avail : AvailableTimes) (brk : BreakStatus)
    (rest : RestStatus) : Bool × String :=
  if avail.cycle ≤ 0 then (false, cycleLimitReason)
  else if avail.driving ≤ 0 then (false, drivingLimitReason)
  else if avail.duty ≤ 0 then (false, dutyLimitReason)
  else if brk.required && !brk.completed then (false, breakRequiredReason)
  else if rest.needs_rest then (false, restRequiredReason)
  else (true, driveGrantedReason)

/-- `HOSRulesEngine._get_or_create_today_log`: fetch the driver's log for
today, or create (and persist) one with the column defaults.  Returns the
log together with the resulting collection of persisted logs. -/
def get_or_create_today_log (logs : List ELDLog) (today : ℤ) :
    ELDLog × List ELDLog :=
  match logs.find? (fun l => decide (l.log_date = today)) with
  | some l => (l, logs)
  | none => (emptyLog today, logs ++ [emptyLog today])

/-- One entry of the list returned by `HOSRulesEngine.predict_violation`.
The rendered f-string description is elided; the kind, severity and
`excess_hours` fields are kept. -/
structure PotentialViolation where
  vtype : ViolationType
  severity : Severity
  excess_hours : ℚ
deriving DecidableEq, Repr

/-- `HOSRulesEngine.predict_violation`: computes the current status (which
get-or-creates today's log, the only write on this path), then reports each
threshold strictly exceeded by the hypothetical new totals — daily driving
against `MAX_DRIVING_HOURS = 11`, daily duty against `MAX_DUTY_HOURS = 14`,
cycle against the hardcoded `CYCLE_70_HOURS = 70` — with severity and
excess.  Returns the predictions with the resulting log collection. -/
def predict_violation (logs : List ELDLog) (today : ℤ) (planned : ℚ) :
    List PotentialViolation × List ELDLog :=
  let gc := get_or_create_today_log logs today
  let daily := calculate_daily_times gc.1
  let cyc := calculate_cycle_times gc.2 today
  let new_driving := daily.driving + planned
  let new_duty := daily.duty + planned
  let new_cycle := cyc.hours_used + planned
  let pv :=
    (if new_driving > 11 then
      [⟨ViolationType.DRIVING_LIMIT, Severity.HIGH, new_driving - 11⟩] else [])
    ++ (if new_duty > 14 then
      [⟨ViolationType.DUTY_LIMIT, Severity.HIGH, new_duty - 14⟩] else [])
    ++ (if new_cycle > 70 then
      [⟨ViolationType.CYCLE_LIMIT, Severity.CRITICAL, new_cycle - 70⟩] else [])
  (pv, gc.2)

/-- `HOSRulesEngine._detect_violations`: the independent (non short-circuit)
checks over the day's totals and the cycle, with kinds and severities.
Nothing on this path persists an `HOSViolation` row. -/
def detect_violations (daily : DailyTimes) (cyc : CycleTimes) :
    List PotentialViolation :=
  (if daily.driving > 11 then
    [⟨ViolationType.DRIVING_LIMIT, Severity.HIGH, daily.driving - 11⟩] else [])
  ++ (if daily.duty > 14 then
    [⟨ViolationType.DUTY_LIMIT, Severity.HIGH, daily.duty - 14⟩] else [])
  ++ (if cyc.hours_used > 70 then
    [⟨ViolationType.CYCLE_LIMIT, Severity.CRITICAL, cyc.hours_used - 70⟩] else [])

/-- The DB state a DailyLog recompute acts on: the log row plus the persisted
standalone `HOSViolation` rows attached to it. -/
structure DayState where
  log : ELDLog
  violations : List HOSViolationRec
deriving DecidableEq, Repr

/-- The totals recompute run after every status change
(`today_log.calculate_daily_totals()` in both
`HOSRulesEngine.record_duty_status_change` and the
`change_duty_status` view).  It rewrites the log's totals, flag and notes via
`check_violations`; no statement on this path creates, updates or deletes an
`HOSViolation` row, so the persisted violation collection is carried through
unchanged. -/
def recompute_after_status_change (s : DayState) : Option DayState :=
  (calculate_daily_totals s.log).map (fun l => ⟨l, s.violations⟩)

/-- Number of owned segments whose end time is NULL (the "active" ones). -/
def openCount (es : List DutyStatusEntry) : ℕ :=
  (es.filter (fun e => decide (e.end_time = none))).length

/-- The `order_by(-start_time).first()` query of
`HOSRulesEngine.record_duty_status_change`: the entry with the greatest
start time, with its position in the list (on a tie the earliest listed of
the maxima, the DB tie order being unspecified). -/
def lastEntry : List DutyStatusEntry → Option (ℕ × DutyStatusEntry)
  | [] => none
  | e :: rest =>
    match lastEntry rest with
    | none => some (0, e)
    | some (j, f) =>
        if f.start_time > e.start_time then some (j + 1, f) else some (0, e)

/-- `HOSRulesEngine.record_duty_status_change`, segment part: fetch the
latest entry by start time, close it with `end_time := now` when its end
time is NULL, then append the new entry with `end_time = None`.
(The totals recompute that follows is `recompute_after_status_change`.) -/
def record_duty_status_change (es : List DutyStatusEntry) (st : DutyStatus)
    (now : ℚ) : List DutyStatusEntry :=
  let closed :=
    match lastEntry es with
    | none => es
    | some (i, e) =>
        if e.end_time = none then es.set i { e with end_time := some now } else es
  closed ++ [{ start_time := now, end_time := none, status := st }]

/-- The `filter(end_time__isnull=True).first()` close step of the
`change_duty_status` view: close the first listed entry whose end time is
NULL. -/
def closeFirstOpen (es : List DutyStatusEntry) (now : ℚ) : List DutyStatusEntry :=
  match es with
  | [] => []
  | e :: rest =>
      if e.end_time = none then { e with end_time := some now } :: rest
      else e :: closeFirstOpen rest now

/-- `eld_logs/views.py`, `change_duty_status`, segment part: close the active
segment (selected by NULL end time) if one exists, then create the new
active segment. -/
def change_duty_status (es : List DutyStatusEntry) (st : DutyStatus)
    (now : ℚ) : List DutyStatusEntry :=
  closeFirstOpen es now ++ [{ start_time := now, end_time := none, status := st }]

/-- The `start_time < end_time` requirement of `DutyStatusEntry.clean`
(`"Start time must be before end time"`), for a closed entry. -/
def clean_times_ok (e : DutyStatusEntry) : Bool :=
  match e.end_time with
  | none => true
  | some t => decide (e.start_time < t)

/-- Error outcomes of the `ELDLogViewSet.certify` endpoint. -/
inductive CertifyError
  | AlreadyCertified
  | SignatureRequired
deriving DecidableEq, Repr

/-- `ELDLogService.certify_log`: set the certification flag, stamp the
certification time and store the signature verbatim. -/
def certify_log (log : ELDLog) (signature_data : String) (now : ℚ) : ELDLog :=
  { log with
      is_certified := true
      certified_at := some now
      signature := signature_data }

/-- `eld_logs/views.py`, `ELDLogViewSet.certify`: reject an already certified
log, reject a missing signature, otherwise delegate to
`ELDLogService.certify_log`.  Returns the persisted log (unchanged on an
error) with the error, if any.  The ownership check against `request.user`
is elided (the embedding is per-log). -/
def certify_endpoint (log : ELDLog) (signature_data : String) (now : ℚ) :
    ELDLog × Option CertifyError :=
  if log.is_certified then (log, some CertifyError.AlreadyCertified)
  else if signature_data = "" then (log, some CertifyError.SignatureRequired)
  else (certify_log log signature_data now, none)

/-- `accounts/models.py`, `User.get_current_hos_hours` for a driver: the
whole body runs under `try`; any failure — the DB query erroring, or the
`TypeError` raised by `entry.duration` on a NULL end time — is caught and `0`
is returned (source comment: return 0 so as not to block authentication).
On success it sums the durations of the DRIVING entries started within the
last 8 x 24 hours.  The `round(total, 2)` and the skipping of zero-length
(falsy) durations — which cannot change the sum — are elided. -/
def get_current_hos_hours (qres : Except String (List DutyStatusEntry))
    (now : ℚ) : ℚ :=
  match qres with
  | Except.error _ => 0
  | Except.ok entries =>
      let sel := entries.filter (fun e =>
        decide (e.status = DutyStatus.DRIVING)
          && decide (now - 8 * 86400 ≤ e.start_time))
      match sel.mapM duration_hours with
      | none => 0
      | some ds => ds.sum

/-- `accounts/models.py`, `User.get_available_driving_hours` for a driver:
ceiling 60 when the company schedule is 7_DAY, else 70; hours used taken
from `get_current_hos_hours`; the 2-decimal rounding is elided. -/
def get_available_driving_hours (sched : Option OperationSchedule)
    (qres : Except String (List DutyStatusEntry)) (now : ℚ) : ℚ :=
  let max_hours : ℚ :=
    match sched with
    | some OperationSchedule.SEVEN_DAY => 60
    | _ => 70
  max 0 (max_hours - get_current_hos_hours qres now)

/-! ## Concrete inputs used by counterexamples and witnesses -/

/-- A log dated 7 days before day 0 carrying 5 driving hours: inside an
8-calendar-day trailing window ending at day 0, outside a 7-day one. -/
def cexOldLog : ELDLog := { emptyLog (-7) with driving_hours := 5 }

/-- A day with a single still-open (NULL end time) DRIVING segment. -/
def cexOpenLog : ELDLog :=
  { emptyLog 0 with entries := [⟨0, none, DutyStatus.DRIVING⟩] }

/-- A day whose sole (closed) segment is 12 hours of driving, with no
persisted `HOSViolation` row. -/
def cexBreachedState : DayState :=
  ⟨{ emptyLog 0 with entries := [⟨0, some 43200, DutyStatus.DRIVING⟩] }, []⟩

/-- The recompute of `cexBreachedState`: driving total 12 h, flag set, one
driving note, still no persisted violation row. -/
def cexBreachedResult : DayState :=
  ⟨{ emptyLog 0 with
      driving_hours := 12
      has_violations := true
      violation_notes := [⟨ViolationType.DRIVING_LIMIT, 12⟩]
      entries := [⟨0, some 43200, DutyStatus.DRIVING⟩] }, []⟩

/-! ## Helper lemmas -/

/-- `check_violations` only rewrites the flag and the notes: every hour
column is untouched, the flag is set exactly when a threshold is strictly
exceeded, and the notes are the assembled per-breach list. -/
theorem check_violations_fields (L : ELDLog) :
    (check_violations L).driving_hours = L.driving_hours
      ∧ (check_violations L).on_duty_not_driving_hours = L.on_duty_not_driving_hours
      ∧ (check_violations L).cycle_hours_used = L.cycle_hours_used
      ∧ ((check_violations L).has_violations = true ↔
          (11 < L.driving_hours ∨ 14 < total_duty_hours L ∨ 70 < L.cycle_hours_used))
      ∧ (check_violations L).violation_notes
          = violation_notes_list L.driving_hours (total_duty_hours L) L.cycle_hours_used := by
  refine ⟨rfl, rfl, rfl, ?_, rfl⟩
  simp only [check_violations, violation_notes_list]
  split_ifs <;> simp_all

/-! ## Claims -/

/-- Claim C1, amended: `_calculate_cycle_times` computes, for every driver
alike, exactly the spec's cycle-totals formula fixed at the 8-day window and
the 70-hour ceiling — the company schedule is never consulted. -/
theorem C1_cycle_totals_hardcoded_eight_day (logs : List ELDLog) (today : ℤ) :
    ((calculate_cycle_times logs today).hours_used,
        (calculate_cycle_times logs today).hours_available)
      = cycleTotals_spec OperationSchedule.EIGHT_DAY logs today := rfl

/-- Claim C1, counterexample: for a driver on the 60h/7-day schedule the
claimed schedule-dependent window and ceiling (N = 7, ceiling 60) disagree
with what the code computes — a log 7 days old still counts and the ceiling
stays 70. -/
theorem C1_schedule_ignored_counterexample :
    ((calculate_cycle_times [cexOldLog] 0).hours_used,
        (calculate_cycle_times [cexOldLog] 0).hours_available)
      ≠ cycleTotals_spec OperationSchedule.SEVEN_DAY [cexOldLog] 0 := by
  norm_num [calculate_cycle_times, cycleTotals_spec, cexOldLog, emptyLog]

/-- Claim C6: on a DailyLog whose active segment is still open, the cited
daily-totals recompute does not count the segment up to now — the model
property `duration_hours` has no now fallback, so `calculate_daily_totals`
fails (`None - datetime` raises in Python, `none` here), while the
serializer's duration for the very same open segment is computed against
now (here 7200 s after a start at 0, i.e. 2 h), showing the intended
semantics the totals path misses. -/
theorem C6_open_segment_totals_fail :
    calculate_daily_totals cexOpenLog = none
      ∧ serializer_duration_hours ⟨0, none, DutyStatus.DRIVING⟩ 7200 = 2 := by
  constructor
  · rfl
  · norm_num [serializer_duration_hours]

/-- Claim C7: certifying an uncertified log succeeds and stores the flag,
timestamp and signature; certifying the result again, with any other
signature and at any later time, fails with `AlreadyCertified` and leaves
the log exactly as the first call wrote it. -/
theorem C7_certify_twice (log : ELDLog) (sig1 sig2 : String) (t1 t2 : ℚ)
    (h : log.is_certified = false) (hsig : sig1 ≠ "") :
    certify_endpoint log sig1 t1 = (certify_log log sig1 t1, none)
      ∧ (certify_log log sig1 t1).is_certified = true
      ∧ (certify_log log sig1 t1).certified_at = some t1
      ∧ (certify_log log sig1 t1).signature = sig1
      ∧ certify_endpoint (certify_log log sig1 t1) sig2 t2
          = (certify_log log sig1 t1, some CertifyError.AlreadyCertified) := by
  simp [certify_endpoint, certify_log, h, hsig]

/-- Claim C7, witness: the double-certification run on a fresh day-0 log
with signatures sig-a then sig-b. -/
theorem C7_certify_twice_witness :
    certify_endpoint (emptyLog 0) "sig-a" 1 = (certify_log (emptyLog 0) "sig-a" 1, none)
      ∧ certify_endpoint (certify_log (emptyLog 0) "sig-a" 1) "sig-b" 2
        = (certify_log (emptyLog 0) "sig-a" 1, some CertifyError.AlreadyCertified) :=
  ⟨(C7_certify_twice (emptyLog 0) "sig-a" "sig-b" 1 2 rfl (by decide)).1,
    (C7_certify_twice (emptyLog 0) "sig-a" "sig-b" 1 2 rfl (by decide)).2.2.2.2⟩

/-- Claim C8: a status change whose timestamp (5) precedes the active
segment's start (10) is not rejected — `record_duty_status_change` closes
the active segment with an end time before its start, producing exactly the
negative-duration segment the spec excludes, one the model's own
`clean` validation (start strictly before end) calls invalid. -/
theorem C8_clock_skew_negative_segment :
    record_duty_status_change [⟨10, none, DutyStatus.DRIVING⟩] DutyStatus.OFF_DUTY 5
        = [⟨10, some 5, DutyStatus.DRIVING⟩, ⟨5, none, DutyStatus.OFF_DUTY⟩]
      ∧ clean_times_ok ⟨10, some 5, DutyStatus.DRIVING⟩ = false := by
  decide

/-- Claim C10, amended: a failure inside the hours-used calculation is
swallowed — `get_current_hos_hours` catches every error from the query and
returns the fail-open default of 0 hours-used instead of surfacing it. -/
theorem C10_failure_returns_zero (s : String) (now : ℚ) :
    get_current_hos_hours (Except.error s) now = 0 := rfl

/-- Claim C10, counterexample: a persistence failure while summing cycle
hours yields the default 0 hours-used — indistinguishable from a driver
with no driving time — rather than a distinct error result. -/
theorem C10_swallowed_error_counterexample :
    get_current_hos_hours (Except.error "database unavailable") 0 = 0 := rfl

/-- Claim C2, amended: the recompute after a status change sets the
DailyLog's `has_violations` flag exactly when a threshold is strictly
breached and rewrites the per-breach notes, but persists no standalone
`HOSViolation` record: the violation collection is left exactly as it was
(in particular no unresolved record of the breached kind is created). -/
theorem C2_breach_flag_without_violation_row (s t : DayState)
    (h : recompute_after_status_change s = some t) :
    t.violations = s.violations
      ∧ (t.log.has_violations = true ↔
          (11 < t.log.driving_hours ∨ 14 < total_duty_hours t.log
            ∨ 70 < t.log.cycle_hours_used))
      ∧ t.log.violation_notes
          = violation_notes_list t.log.driving_hours (total_duty_hours t.log)
              t.log.cycle_hours_used := by
  unfold recompute_after_status_change at h
  obtain ⟨l, hl, ht⟩ := Option.map_eq_some'.mp h
  subst ht
  unfold calculate_daily_totals at hl
  obtain ⟨tt, _, hcv⟩ := Option.map_eq_some'.mp hl
  subst hcv
  obtain ⟨h1, h2, h3, h4, h5⟩ := check_violations_fields
    { s.log with
        off_duty_hours := tt.off_duty
        sleeper_berth_hours := tt.sleeper
        driving_hours := tt.driving
        on_duty_not_driving_hours := tt.on_duty }
  refine ⟨rfl, ?_, ?_⟩
  · rw [h4]
    simp only [total_duty_hours, h1, h2, h3]
  · rw [h5]
    simp only [total_duty_hours, h1, h2, h3]

/-- Claim C2, witness: recomputing the 12-hour-driving day flags the log
and leaves the (empty) violation collection untouched. -/
theorem C2_breach_flag_witness :
    cexBreachedResult.violations = cexBreachedState.violations
      ∧ (cexBreachedResult.log.has_violations = true ↔
          (11 < cexBreachedResult.log.driving_hours
            ∨ 14 < total_duty_hours cexBreachedResult.log
            ∨ 70 < cexBreachedResult.log.cycle_hours_used)) :=
  have h : recompute_after_status_change cexBreachedState = some cexBreachedResult := by
    norm_num [recompute_after_status_change, calculate_daily_totals,
      dailyTotalsFromEntries, duration_hours, bumpTotals, check_violations,
      violation_notes_list, total_duty_hours, cexBreachedState,
      cexBreachedResult, emptyLog]
  ⟨(C2_breach_flag_without_violation_row cexBreachedState cexBreachedResult h).1,
    (C2_breach_flag_without_violation_row cexBreachedState cexBreachedResult h).2.1⟩

/-- Claim C2, counterexample: after the recompute of a day with 12 driving
hours the flag is set, yet the persisted collection holds no unresolved
DRIVING_LIMIT violation record — the claimed standalone record is never
created. -/
theorem C2_no_violation_row_counterexample :
    (recompute_after_status_change cexBreachedState).map
        (fun t => (t.log.has_violations,
          t.violations.filter (fun v =>
            decide (v.violation_type = ViolationType.DRIVING_LIMIT)
              && !v.is_resolved)))
      = some (true, []) := by
  norm_num [recompute_after_status_change, calculate_daily_totals,
    dailyTotalsFromEntries, duration_hours, bumpTotals, check_violations,
    violation_notes_list, total_duty_hours, cexBreachedState, emptyLog]

/-- Claim C4: a driving total of exactly 11.00 h produces no driving-limit
violation note (the comparison is strict), any total strictly above 11 does;
and at exactly 11.00 h the available driving time is 0 so
`can_start_driving` refuses a new DRIVING transition. -/
theorem C4_eleven_hour_boundary (daily : DailyTimes) (cyc : CycleTimes)
    (rest : RestStatus) (brk : BreakStatus) :
    ((violation_notes_list daily.driving daily.duty cyc.hours_used).filter
        (fun n => decide (n.kind = ViolationType.DRIVING_LIMIT))
      = if 11 < daily.driving then [⟨ViolationType.DRIVING_LIMIT, daily.driving⟩] else [])
      ∧ (daily.driving = 11 →
          (calculate_available_times daily cyc rest).driving = 0
            ∧ (can_start_driving (calculate_available_times daily cyc rest)
                brk rest).1 = false) := by
  constructor
  · simp only [violation_notes_list, List.filter_append]
    split_ifs <;> simp
  · intro h
    have hz : (calculate_available_times daily cyc rest).driving = 0 := by
      unfold calculate_available_times
      split_ifs
      · rfl
      · simp [h]
    refine ⟨hz, ?_⟩
    unfold can_start_driving
    rw [if_pos (le_of_eq hz)]

/-- Claim C4, witness: the boundary facts at a concrete status with exactly
11.00 driving hours. -/
theorem C4_eleven_hour_boundary_witness :
    (calculate_available_times ⟨11, 0, 11, 0, 0⟩ ⟨0, 70, 0⟩ ⟨0, false, false⟩).driving = 0
      ∧ (can_start_driving
          (calculate_available_times ⟨11, 0, 11, 0, 0⟩ ⟨0, 70, 0⟩ ⟨0, false, false⟩)
          ⟨false, true⟩ ⟨0, false, false⟩).1 = false :=
  (C4_eleven_hour_boundary ⟨11, 0, 11, 0, 0⟩ ⟨0, 70, 0⟩ ⟨0, false, false⟩
    ⟨false, true⟩).2 rfl

/-- Claim C5, amended: `can_start_driving` evaluates its conditions in the
order daily driving-available > 0, daily duty-available > 0,
cycle-hours-available > 0, break satisfied, rest satisfied, and returns the
reason of the first condition that fails — so when several fail (e.g. the
cycle and the daily driving limit together) the daily-driving reason, not
the cycle reason, is returned. -/
theorem C5_short_circuit_order (a : AvailableTimes) (b : BreakStatus)
    (r : RestStatus) :
    (a.driving ≤ 0 → can_start_driving a b r = (false, drivingLimitReason))
      ∧ (0 < a.driving → a.duty ≤ 0 →
          can_start_driving a b r = (false, dutyLimitReason))
      ∧ (0 < a.driving → 0 < a.duty → a.cycle ≤ 0 →
          can_start_driving a b r = (false, cycleLimitReason))
      ∧ (0 < a.driving → 0 < a.duty → 0 < a.cycle →
          b.required = true → b.completed = false →
          can_start_driving a b r = (false, breakRequiredReason))
      ∧ (0 < a.driving → 0 < a.duty → 0 < a.cycle →
          (b.required = false ∨ b.completed = true) → r.needs_rest = true →
          can_start_driving a b r = (false, restRequiredReason))
      ∧ (0 < a.driving → 0 < a.duty → 0 < a.cycle →
          (b.required = false ∨ b.completed = true) → r.needs_rest = false →
          can_start_driving a b r = (true, driveGrantedReason)) := by
  refine ⟨?_, ?_, ?_, ?_, ?_, ?_⟩
  · intro h1
    simp [can_start_driving, h1]
  · intro h1 h2
    simp [can_start_driving, not_le.mpr h1, h2]
  · intro h1 h2 h3
    simp [can_start_driving, not_le.mpr h1, not_le.mpr h2, h3]
  · intro h1 h2 h3 hb1 hb2
    simp [can_start_driving, not_le.mpr h1, not_le.mpr h2, not_le.mpr h3, hb1, hb2]
  · intro h1 h2 h3 hb hr
    rcases hb with hb | hb <;>
      simp [can_start_driving, not_le.mpr h1, not_le.mpr h2, not_le.mpr h3, hb, hr]
  · intro h1 h2 h3 hb hr
    rcases hb with hb | hb <;>
      simp [can_start_driving, not_le.mpr h1, not_le.mpr h2, not_le.mpr h3, hb, hr]

/-- Claim C5, witness: a state in which only the daily driving limit fails
yields the daily-driving reason. -/
theorem C5_short_circuit_order_witness :
    can_start_driving ⟨0, 1, 1⟩ ⟨false, true⟩ ⟨0, false, false⟩
      = (false, drivingLimitReason) :=
  (C5_short_circuit_order ⟨0, 1, 1⟩ ⟨false, true⟩ ⟨0, false, false⟩).1 le_rfl

/-- Claim C5, counterexample: with today's driving at 12 h and 72 cycle
hours both the cycle condition and the daily driving condition fail, yet the
code returns the daily-driving reason while the claimed cycle-first ordering
(`canStartDriving_spec`) would return the cycle reason. -/
theorem C5_cycle_not_first_counterexample :
    can_start_driving
        (calculate_available_times ⟨12, 1, 13, 0, 0⟩
          (calculate_cycle_times [{ emptyLog 0 with driving_hours := 72 }] 0)
          ⟨2, false, false⟩)
        ⟨false, true⟩ ⟨2, false, false⟩
      = (false, drivingLimitReason)
      ∧ canStartDriving_spec
          (calculate_available_times ⟨12, 1, 13, 0, 0⟩
            (calculate_cycle_times [{ emptyLog 0 with driving_hours := 72 }] 0)
            ⟨2, false, false⟩)
          ⟨false, true⟩ ⟨2, false, false⟩
        = (false, cycleLimitReason)
      ∧ drivingLimitReason ≠ cycleLimitReason := by
  refine ⟨?_, ?_, by decide⟩ <;>
    norm_num [can_start_driving, canStartDriving_spec, calculate_available_times,
      calculate_cycle_times, emptyLog]

/-- Open-segment counts add over list concatenation. -/
theorem openCount_append (a b : List DutyStatusEntry) :
    openCount (a ++ b) = openCount a + openCount b := by
  simp [openCount, List.filter_append]

/-- Open-segment count of a cons. -/
theorem openCount_cons (e : DutyStatusEntry) (l : List DutyStatusEntry) :
    openCount (e :: l) = (if e.end_time = none then 1 else 0) + openCount l := by
  simp only [openCount, List.filter_cons]
  split_ifs with h <;> simp_all [Nat.add_comm]

/-- A list all of whose entries are closed has no open segment. -/
theorem openCount_eq_zero_of_closed (es : List DutyStatusEntry)
    (h : ∀ f ∈ es, f.end_time ≠ none) : openCount es = 0 := by
  induction es with
  | nil => rfl
  | cons e l ih =>
      rw [openCount_cons, if_neg (h e (List.mem_cons_self e l)),
        ih (fun f hf => h f (List.mem_cons_of_mem e hf))]

/-- Closing the first open entry of a list with at most one open entry
leaves no open entry. -/
theorem closeFirstOpen_openCount (es : List DutyStatusEntry) (now : ℚ)
    (h : openCount es ≤ 1) : openCount (closeFirstOpen es now) = 0 := by
  induction es with
  | nil => rfl
  | cons e l ih =>
      rw [openCount_cons] at h
      unfold closeFirstOpen
      split_ifs with he
      · rw [if_pos he] at h
        rw [openCount_cons]
        simp only [if_neg (by simp : ¬(some now = (none : Option ℚ)))]
        omega
      · rw [if_neg he] at h
        rw [openCount_cons, if_neg he, ih (by omega)]

/-- When every element of `es'` starts strictly before `e`, the
`order_by(-start_time).first()` query on `es' ++ [e]` returns `e` at its
position `es'.length`. -/
theorem lastEntry_append_strict (es' : List DutyStatusEntry) (e : DutyStatusEntry)
    (h : ∀ f ∈ es', f.start_time < e.start_time) :
    lastEntry (es' ++ [e]) = some (es'.length, e) := by
  induction es' with
  | nil => rfl
  | cons f rest ih =>
      have hf := h f (List.mem_cons_self f rest)
      have hrest : ∀ g ∈ rest, g.start_time < e.start_time :=
        fun g hg => h g (List.mem_cons_of_mem f hg)
      simp only [List.cons_append, lastEntry, List.append_eq, ih hrest]
      simp [hf]

/-- Setting the final position of `es' ++ [e]` replaces `e`. -/
theorem set_append_last (es' : List DutyStatusEntry) (e x : DutyStatusEntry) :
    (es' ++ [e]).set es'.length x = es' ++ [x] := by
  induction es' with
  | nil => rfl
  | cons a l ih => simp [List.set, ih]

/-- Claim C3, amended: a status change through the `change_duty_status` view
(which closes the segment selected by its NULL end time) turns any state
with at most one open segment into one with exactly one; the engine's
`record_duty_status_change`, which instead closes the latest-started
segment only when that one is open, guarantees this only for histories in
which every segment but the most recent (strictly latest-started) one is
closed. -/
theorem C3_single_active_segment (es : List DutyStatusEntry)
    (st : DutyStatus) (now : ℚ) :
    (openCount es ≤ 1 → openCount (change_duty_status es st now) = 1)
      ∧ ((es = [] ∨ ∃ es' e, es = es' ++ [e]
            ∧ ∀ f ∈ es', f.end_time ≠ none ∧ f.start_time < e.start_time) →
          openCount (record_duty_status_change es st now) = 1) := by
  constructor
  · intro h
    rw [change_duty_status, openCount_append, closeFirstOpen_openCount es now h]
    rfl
  · rintro (rfl | ⟨es', e, rfl, hw⟩)
    · rfl
    · have hclosed : ∀ f ∈ es', f.end_time ≠ none := fun f hf => (hw f hf).1
      have hstart : ∀ f ∈ es', f.start_time < e.start_time := fun f hf => (hw f hf).2
      simp only [record_duty_status_change, lastEntry_append_strict es' e hstart]
      split_ifs with he
      · rw [set_append_last, openCount_append, openCount_append,
          openCount_eq_zero_of_closed es' hclosed]
        rfl
      · rw [openCount_append, openCount_append,
          openCount_eq_zero_of_closed es' hclosed, openCount_cons]
        rw [if_neg he]
        rfl

/-- Claim C3, witness: both operations applied to a well-formed history
(one closed segment, then the open active one) leave exactly one active
segment. -/
theorem C3_single_active_segment_witness :
    openCount (change_duty_status
        [⟨0, some 1, DutyStatus.OFF_DUTY⟩, ⟨5, none, DutyStatus.DRIVING⟩]
        DutyStatus.OFF_DUTY 9) = 1
      ∧ openCount (record_duty_status_change
          [⟨0, some 1, DutyStatus.OFF_DUTY⟩, ⟨5, none, DutyStatus.DRIVING⟩]
          DutyStatus.OFF_DUTY 9) = 1 :=
  ⟨(C3_single_active_segment
      [⟨0, some 1, DutyStatus.OFF_DUTY⟩, ⟨5, none, DutyStatus.DRIVING⟩]
      DutyStatus.OFF_DUTY 9).1 (by decide),
    (C3_single_active_segment
      [⟨0, some 1, DutyStatus.OFF_DUTY⟩, ⟨5, none, DutyStatus.DRIVING⟩]
      DutyStatus.OFF_DUTY 9).2
      (Or.inr ⟨[⟨0, some 1, DutyStatus.OFF_DUTY⟩], ⟨5, none, DutyStatus.DRIVING⟩,
        rfl, by decide⟩)⟩

/-- Claim C3, counterexample: a state satisfying the claimed precondition —
exactly one open segment, but an older one (a later segment was closed
past it) — on which `record_duty_status_change` closes nothing (the
latest-started segment is already closed) and opens a second active
segment: the invariant is not preserved. -/
theorem C3_stale_open_counterexample :
    openCount [⟨0, none, DutyStatus.OFF_DUTY⟩, ⟨100, some 200, DutyStatus.DRIVING⟩] ≤ 1
      ∧ openCount (record_duty_status_change
          [⟨0, none, DutyStatus.OFF_DUTY⟩, ⟨100, some 200, DutyStatus.DRIVING⟩]
          DutyStatus.ON_DUTY_NOT_DRIVING 300) = 2 := by
  decide

/-- Claim C9, amended: `predict_violation` reports exactly the thresholds
(daily driving 11 h, daily duty 14 h, the hardcoded 70 h cycle ceiling) that
the hypothetical new totals strictly exceed, each with excess = new total −
threshold, and creates no segment or violation record — but it is not
mutation-free: its status query get-or-creates today's DailyLog, so the log
collection is only unchanged when today's log already exists. -/
theorem C9_predict_reports_excess (logs : List ELDLog) (today : ℤ) (planned : ℚ) :
    ((predict_violation logs today planned).1.filter
        (fun v => decide (v.vtype = ViolationType.DRIVING_LIMIT))
      = if 11 < (get_or_create_today_log logs today).1.driving_hours + planned then
          [⟨ViolationType.DRIVING_LIMIT, Severity.HIGH,
            (get_or_create_today_log logs today).1.driving_hours + planned - 11⟩]
        else [])
      ∧ ((predict_violation logs today planned).1.filter
          (fun v => decide (v.vtype = ViolationType.DUTY_LIMIT))
        = if 14 < (get_or_create_today_log logs today).1.driving_hours
              + (get_or_create_today_log logs today).1.on_duty_not_driving_hours
              + planned then
            [⟨ViolationType.DUTY_LIMIT, Severity.HIGH,
              (get_or_create_today_log logs today).1.driving_hours
                + (get_or_create_today_log logs today).1.on_duty_not_driving_hours
                + planned - 14⟩]
          else [])
      ∧ ((predict_violation logs today planned).1.filter
          (fun v => decide (v.vtype = ViolationType.CYCLE_LIMIT))
        = if 70 < (calculate_cycle_times (get_or_create_today_log logs today).2
              today).hours_used + planned then
            [⟨ViolationType.CYCLE_LIMIT, Severity.CRITICAL,
              (calculate_cycle_times (get_or_create_today_log logs today).2
                today).hours_used + planned - 70⟩]
          else [])
      ∧ (predict_violation logs today planned).2
          = (get_or_create_today_log logs today).2
      ∧ ((∃ l ∈ logs, l.log_date = today) →
          (predict_violation logs today planned).2 = logs) := by
  refine ⟨?_, ?_, ?_, rfl, ?_⟩
  · simp only [predict_violation, calculate_daily_times]
    split_ifs <;> simp [List.filter_append]
  · simp only [predict_violation, calculate_daily_times]
    split_ifs <;> simp [List.filter_append]
  · simp only [predict_violation, calculate_daily_times]
    split_ifs <;> simp [List.filter_append]
  · intro hex
    have hsome : (logs.find? (fun l => decide (l.log_date = today))).isSome := by
      rw [List.find?_isSome]
      obtain ⟨l, hl, hd⟩ := hex
      exact ⟨l, hl, by simp [hd]⟩
    obtain ⟨l0, hf⟩ := Option.isSome_iff_exists.mp hsome
    simp only [predict_violation, get_or_create_today_log, hf]

/-- Claim C9, witness: with today's log already present the prediction
leaves the log collection unchanged. -/
theorem C9_predict_reports_excess_witness :
    (predict_violation [emptyLog 0] 0 0).2 = [emptyLog 0] :=
  (C9_predict_reports_excess [emptyLog 0] 0 0).2.2.2.2
    ⟨emptyLog 0, List.mem_singleton.mpr rfl, rfl⟩

/-- Claim C9, counterexample: for a driver with no DailyLog today the
what-if query persists one — the ledger is not left unchanged, contrary to
the claim. -/
theorem C9_persists_today_log_counterexample :
    (predict_violation [] 0 0).2 = [emptyLog 0]
      ∧ ([emptyLog 0] : List ELDLog) ≠ ([] : List ELDLog) := by
  exact ⟨rfl, by simp⟩

end Spotter
